import Mathlib

/-!
Verification development for the unsplash-demo repository: a React frontend
(`src/frontend/src/App.tsx`, with an earlier variant in `src/unnamed/part_001`)
around a single vector-search network call, plus a backend proxy referenced by
the Dockerfiles.  The definitions below are a shallow embedding of the data
model and the state-manipulating handlers of that code; the theorems settle the
spec claims against them.
-/

namespace UnsplashDemo

/-- A JavaScript value as allowed by the result-record index signature
`[key: string]: string | number | undefined | null` in `QueryResponse`
(App.tsx lines 50-54).  Numbers are modelled as rationals. -/
inductive JsValue where
  | str (s : String)
  | num (q : ℚ)
  | null
  | undefined
  deriving DecidableEq, Repr

/-- One result record: a JavaScript object, i.e. a finite association of field
names to values, with the reserved fields `__id` and `__distance` accessed
through the same mapping (App.tsx lines 50-54). -/
structure ResultRecord where
  fields : List (String × JsValue)
  deriving DecidableEq, Repr

/-- JavaScript property access `record[key]`: the stored value, or `undefined`
when the key is absent. -/
def ResultRecord.get (r : ResultRecord) (k : String) : JsValue :=
  match r.fields.lookup k with
  | some v => v
  | none => .undefined

/-- The reserved identifier field `__id` of a record. -/
def ResultRecord.idField (r : ResultRecord) : JsValue := r.get "__id"

/-- The reserved similarity-score field `__distance` of a record. -/
def ResultRecord.distanceField (r : ResultRecord) : JsValue := r.get "__distance"

/-- The `QueryResponse` interface (App.tsx lines 46-55). -/
structure QueryResponse where
  collection_id : String
  result_count : Int
  sql : Option String
  results : List ResultRecord
  deriving DecidableEq, Repr

/-- The `SearchQuery` interface (App.tsx lines 39-44): `query_to_embed` and
`sql` are optional fields. -/
structure SearchQuery where
  starpoint_api_key : String
  starpoint_collection_name : String
  query_to_embed : Option String
  sql : Option String
  deriving DecidableEq, Repr

/-- The `Config` interface stored in the `config` ref (App.tsx lines 73-76). -/
structure Config where
  apiKey : String
  collectionName : String
  deriving DecidableEq, Repr

/-- Browser local storage, modelled as an association list of string keys to
string values. -/
abbrev LocalStorage := List (String × String)

/-- `localStorage.getItem`: `some` stored value, or `none` when absent
(JavaScript `null`). -/
def getItem (ls : LocalStorage) (k : String) : Option String :=
  ls.lookup k

/-- `localStorage.setItem`: store `v` under `k`, replacing any previous
entry. -/
def setItem (ls : LocalStorage) (k v : String) : LocalStorage :=
  (k, v) :: ls.filter (fun p => p.1 != k)

/-- `API_KEY_KEY` (App.tsx line 82). -/
def API_KEY_KEY : String := "api_key"

/-- `COLLECTION_NAME_KEY` (App.tsx line 83). -/
def COLLECTION_NAME_KEY : String := "collection_name"

/-- Startup initialisation of the `config` ref (App.tsx lines 197-200):
`localStorage.getItem(...) ?? ""` for both fields. -/
def initConfig (ls : LocalStorage) : Config :=
  { apiKey := (getItem ls API_KEY_KEY).getD ""
    collectionName := (getItem ls COLLECTION_NAME_KEY).getD "" }

/-- The local component state of the `Settings` component: the displayed
values of the two inputs (App.tsx lines 87-90). -/
structure SettingsState where
  apiKey : String
  collectionName : String
  deriving DecidableEq, Repr

/-- The `onChange` handler of the API-key input (App.tsx lines 112-116): a
keystroke producing value `v` updates the component state, the shared config
ref, and local storage under `API_KEY_KEY`. -/
def onApiKeyChange (st : SettingsState) (cfg : Config) (ls : LocalStorage)
    (v : String) : SettingsState × Config × LocalStorage :=
  ({ st with apiKey := v },
   { cfg with apiKey := v },
   setItem ls API_KEY_KEY v)

/-- The `onChange` handler of the collection-name input (App.tsx lines
134-138): a keystroke producing value `v` updates the component state, the
shared config ref, and local storage under `COLLECTION_NAME_KEY`. -/
def onCollectionNameChange (st : SettingsState) (cfg : Config)
    (ls : LocalStorage) (v : String) : SettingsState × Config × LocalStorage :=
  ({ st with collectionName := v },
   { cfg with collectionName := v },
   setItem ls COLLECTION_NAME_KEY v)

/-- The mutable state of the `App` component (App.tsx lines 196-206) together
with the browser's local storage, which the `Settings` drawer mutates. -/
structure AppState where
  config : Config
  query : String
  sql : String
  results : List ResultRecord
  loading : Bool
  error : Option String
  localStorage : LocalStorage
  deriving DecidableEq, Repr

/-- Initial `App` state (App.tsx lines 196-205): config loaded from local
storage, empty query and sql, empty results, not loading, no error. -/
def initApp (ls : LocalStorage) : AppState :=
  { config := initConfig ls
    query := ""
    sql := ""
    results := []
    loading := false
    error := none
    localStorage := ls }

/-- The outcome of the awaited `search` call inside `triggerSearch`: either a
parsed `QueryResponse`, or a thrown error carrying a message. -/
inductive SearchOutcome where
  | success (resp : QueryResponse)
  | failure (msg : String)
  deriving DecidableEq, Repr

/-- The request body built inside `triggerSearch` (App.tsx lines 215-220):
key and collection from the config ref, `query_to_embed` from the query
field, `sql` from the sql field. -/
def mkSearchQuery (s : AppState) : SearchQuery :=
  { starpoint_api_key := s.config.apiKey
    starpoint_collection_name := s.config.collectionName
    query_to_embed := some s.query
    sql := some s.sql }

/-- The synchronous first half of `triggerSearch` (App.tsx lines 208-214): if
the api key or the collection name is falsy (the empty string) it returns
without touching anything and no request is issued; otherwise it sets
`loading` to true, clears `error`, and issues the request built by
`mkSearchQuery`. -/
def beginSearch (s : AppState) : AppState × Option SearchQuery :=
  if s.config.apiKey = "" ∨ s.config.collectionName = "" then
    (s, none)
  else
    ({ s with loading := true, error := none }, some (mkSearchQuery s))

/-- The continuation of `triggerSearch` after the awaited call returns
(App.tsx lines 221-227): on success the results state becomes the response's
`results`; on a thrown error the error state becomes the error's message; in
either case the `finally` block resets `loading` to false. -/
def finishSearch (s : AppState) (o : SearchOutcome) : AppState :=
  match o with
  | .success resp => { s with results := resp.results, loading := false }
  | .failure msg => { s with error := some msg, loading := false }

/-- A full run of `triggerSearch` (App.tsx lines 208-228) with outcome `o`:
the resulting state, paired with the request that was issued (`none` when the
guard returned early). -/
def triggerSearch (s : AppState) (o : SearchOutcome) : AppState × Option SearchQuery :=
  match beginSearch s with
  | (s', none) => (s', none)
  | (s', some req) => (finishSearch s' o, some req)

/-- The `disabled` condition of the Search button, negated (App.tsx lines
260-269): the button is enabled exactly when not loading and both config
fields are non-empty. -/
def searchButtonEnabled (a : AppState) : Bool :=
  !a.loading && !(a.config.apiKey == "") && !(a.config.collectionName == "")

/-- The error area of the render (App.tsx line 275): `error && <div>...` shows
the error text exactly when the error state is a truthy (non-null, non-empty)
string. -/
def renderError (s : AppState) : Option String :=
  match s.error with
  | some m => if m = "" then none else some m
  | none => none

/-- The `WIDTH` constant of the result renderer (App.tsx line 279). -/
def WIDTH : Nat := 320

/-- JavaScript string coercion as performed by a template literal, for the
values a result field can hold. -/
def jsAsString : JsValue → String
  | .str s => s
  | .num q => toString q
  | .null => "null"
  | .undefined => "undefined"

/-- The props handed to one `ImageCard` (App.tsx lines 283-291).  `photoId`
(also used as the React `key`) and `description` are the raw field values
`result["photo_id"]` and `result["ai_description"]`; `photoUrl` is built by a
template literal.  The `extra` prop, a JSON dump of the record, is not
modelled: no claim refers to it. -/
structure ImageCardProps where
  key : JsValue
  photoId : JsValue
  photoUrl : String
  description : JsValue
  deriving DecidableEq, Repr

/-- Construction of one image card from one result record (App.tsx lines
278-291). -/
def mkImageCard (r : ResultRecord) : ImageCardProps :=
  let photoId := r.get "photo_id"
  { key := photoId
    photoId := photoId
    photoUrl := "https://unsplash.com/photos/" ++ jsAsString photoId
        ++ "/download?w=" ++ toString WIDTH
    description := r.get "ai_description" }

/-- The result grid (App.tsx lines 276-294): one image card per result record,
in the order of the results state. -/
def renderGrid (results : List ResultRecord) : List ImageCardProps :=
  results.map mkImageCard

/-- What the `ImageCard` component displays (App.tsx lines 158-193): the image
`src` is the `photoUrl` prop, the heading is the `photoId` prop, the text is
the `description` prop. -/
structure RenderedCard where
  imageSrc : String
  heading : JsValue
  text : JsValue
  deriving DecidableEq, Repr

/-- Rendering of one `ImageCard` from its props (App.tsx lines 158-193). -/
def renderImageCard (p : ImageCardProps) : RenderedCard :=
  { imageSrc := p.photoUrl, heading := p.photoId, text := p.description }

/-- Modelled from the spec: the backend proxy (the FastAPI application
`backend.main:app` / `backend.app.api:app` named by the Dockerfiles is not
present in the repository snapshot).  Per the spec it "receives a search
request, forwards it to the external vector-search API, returns the response
verbatim".  The external API is an opaque collaborator with a fixed
request/response contract, modelled as a function; the proxy returns the
payload it forwarded together with the response it returned to its caller. -/
def backendProxy (externalApi : SearchQuery → QueryResponse)
    (req : SearchQuery) : SearchQuery × QueryResponse :=
  (req, externalApi req)

/-- The whole interactive system for the concurrency claim: the `App` state
plus the multiset (list) of search requests currently in flight. -/
structure SysState where
  app : AppState
  inFlight : List SearchQuery
  deriving DecidableEq, Repr

/-- Initial system state: freshly mounted `App`, no request in flight. -/
def initSys (ls : LocalStorage) : SysState :=
  { app := initApp ls, inFlight := [] }

/-- The user-visible events of the `App` page: clicking the Search button,
completion of an in-flight request, keystrokes in the query, sql, api-key and
collection-name inputs. -/
inductive Event where
  | clickSearch
  | completeSearch (o : SearchOutcome)
  | typeQuery (v : String)
  | typeSql (v : String)
  | typeApiKey (v : String)
  | typeCollectionName (v : String)
  deriving DecidableEq, Repr

/-- One event step of the page.  A click on the Search button runs the guard
and synchronous prefix of `triggerSearch` only when the button is enabled
(App.tsx lines 260-269); completion of an in-flight request runs the rest of
`triggerSearch` (App.tsx lines 221-227); keystrokes update the corresponding
state (App.tsx lines 243, 252, and the `Settings` handlers). -/
def stepEvent (s : SysState) (e : Event) : SysState :=
  match e with
  | .clickSearch =>
    if searchButtonEnabled s.app then
      match beginSearch s.app with
      | (a, none) => { s with app := a }
      | (a, some req) => { app := a, inFlight := s.inFlight ++ [req] }
    else s
  | .completeSearch o =>
    match s.inFlight with
    | [] => s
    | _ :: rest => { app := finishSearch s.app o, inFlight := rest }
  | .typeQuery v => { s with app := { s.app with query := v } }
  | .typeSql v => { s with app := { s.app with sql := v } }
  | .typeApiKey v =>
    { s with app := { s.app with
        config := { s.app.config with apiKey := v }
        localStorage := setItem s.app.localStorage API_KEY_KEY v } }
  | .typeCollectionName v =>
    { s with app := { s.app with
        config := { s.app.config with collectionName := v }
        localStorage := setItem s.app.localStorage COLLECTION_NAME_KEY v } }

/-- Run a sequence of events from a system state. -/
def runEvents (s : SysState) (es : List Event) : SysState :=
  es.foldl stepEvent s

/-- The single-in-flight invariant: never more than one outstanding request,
and the loading flag is set exactly while a request is outstanding. -/
def atMostOneInFlight (s : SysState) : Prop :=
  s.inFlight.length ≤ 1 ∧ (s.app.loading = true ↔ s.inFlight ≠ [])

/-- Startup initialisation of the settings drawer in the `src/unnamed/part_001`
variant of `App` (part_001 lines 201-216): `useDisclosure` receives
`defaultIsOpen` true exactly when the loaded api key or collection name is
`undefined` or the empty string.  After `localStorage.getItem(...) ?? ""` the
fields are strings, so the `undefined` disjuncts are vacuous and the drawer
opens exactly when a field is empty. -/
def initSettingsDrawerOpen (ls : LocalStorage) : Bool :=
  let cfg := initConfig ls
  cfg.apiKey == "" || cfg.collectionName == ""

/-! Concrete sample data used by the witness theorems. -/

/-- A sample `App` state with both settings filled in. -/
def sampleApp : AppState :=
  { config := { apiKey := "key1", collectionName := "images" }
    query := "a road in the forest"
    sql := "SELECT *"
    results := []
    loading := false
    error := none
    localStorage := [] }

/-- A sample result record. -/
def sampleRecord : ResultRecord :=
  { fields := [("__id", .str "id1"), ("__distance", .num (1/2)),
               ("photo_id", .str "abc"), ("ai_description", .str "a tree")] }

/-- A sample query response. -/
def sampleResp : QueryResponse :=
  { collection_id := "col1", result_count := 1, sql := none
    results := [sampleRecord] }

/-! The claim theorems. -/

/-- C1: whenever the api key or the collection name is the empty string,
triggering a search issues no request and leaves the state unchanged; and a
request is only ever issued when both are non-empty. -/
theorem search_requires_nonempty_settings (s : AppState) (o : SearchOutcome) :
    (s.config.apiKey = "" ∨ s.config.collectionName = "" →
      triggerSearch s o = (s, none)) ∧
    (∀ req, (triggerSearch s o).2 = some req →
      s.config.apiKey ≠ "" ∧ s.config.collectionName ≠ "") := by
  constructor
  · intro h
    simp [triggerSearch, beginSearch, h]
  · intro req hreq
    by_cases h : s.config.apiKey = "" ∨ s.config.collectionName = ""
    · simp [triggerSearch, beginSearch, h] at hreq
    · push_neg at h
      exact h

/-- C1 witness: on the freshly mounted app over empty local storage (both
settings empty), triggering a search is a no-op issuing no request. -/
theorem search_requires_nonempty_settings_witness :
    triggerSearch (initApp []) (.failure "err") = (initApp [], none) :=
  (search_requires_nonempty_settings (initApp []) (.failure "err")).1
    (Or.inl rfl)

/-- C2: when the search call throws, the caught error's message becomes the
error state and the error area renders it (the render guard `error && ...`
hides only an empty message, which has no visible text anyway); on a
successful call the error state is null. -/
theorem search_failure_sets_error (s : AppState) (m : String)
    (resp : QueryResponse) :
    (∀ s' req, triggerSearch s (.failure m) = (s', some req) →
      s'.error = some m ∧ (m ≠ "" → renderError s' = some m)) ∧
    (∀ s' req, triggerSearch s (.success resp) = (s', some req) →
      s'.error = none) := by
  by_cases h : s.config.apiKey = "" ∨ s.config.collectionName = ""
  · constructor <;> intro s' req hreq <;>
      simp [triggerSearch, beginSearch, h] at hreq
  · constructor <;> intro s' req hreq
    · simp [triggerSearch, beginSearch, finishSearch, h] at hreq
      obtain ⟨hs, -⟩ := hreq
      subst hs
      refine ⟨rfl, fun hm => ?_⟩
      simp [renderError, hm]
    · simp [triggerSearch, beginSearch, finishSearch, h] at hreq
      obtain ⟨hs, -⟩ := hreq
      subst hs
      rfl

/-- C2 witness: a failing search on the sample state stores and renders the
message "boom"; a successful one leaves the error state null. -/
theorem search_failure_sets_error_witness :
    (triggerSearch sampleApp (.failure "boom")).1.error = some "boom" ∧
    renderError (triggerSearch sampleApp (.failure "boom")).1 = some "boom" ∧
    (triggerSearch sampleApp (.success sampleResp)).1.error = none := by
  have h := search_failure_sets_error sampleApp "boom" sampleResp
  have h1 := h.1 (triggerSearch sampleApp (.failure "boom")).1
    (mkSearchQuery sampleApp) rfl
  have h2 := h.2 (triggerSearch sampleApp (.success sampleResp)).1
    (mkSearchQuery sampleApp) rfl
  exact ⟨h1.1, h1.2 (by decide), h2⟩

/-- C3: every request issued by triggering a search is built exactly from the
current form state: key and collection from the settings config, the
natural-language text from the query field, the SQL filter text from the sql
field, both carried in the optional fields. -/
theorem search_request_from_form_state (s : AppState) (o : SearchOutcome)
    (req : SearchQuery) :
    (triggerSearch s o).2 = some req →
      req.starpoint_api_key = s.config.apiKey ∧
      req.starpoint_collection_name = s.config.collectionName ∧
      req.query_to_embed = some s.query ∧
      req.sql = some s.sql := by
  intro hreq
  by_cases h : s.config.apiKey = "" ∨ s.config.collectionName = ""
  · simp [triggerSearch, beginSearch, h] at hreq
  · simp [triggerSearch, beginSearch, h] at hreq
    subst hreq
    exact ⟨rfl, rfl, rfl, rfl⟩

/-- C3 witness: the request issued from the sample state carries exactly its
form fields. -/
theorem search_request_from_form_state_witness :
    (mkSearchQuery sampleApp).starpoint_api_key = sampleApp.config.apiKey ∧
    (mkSearchQuery sampleApp).starpoint_collection_name
      = sampleApp.config.collectionName ∧
    (mkSearchQuery sampleApp).query_to_embed = some sampleApp.query ∧
    (mkSearchQuery sampleApp).sql = some sampleApp.sql :=
  search_request_from_form_state sampleApp (.failure "boom")
    (mkSearchQuery sampleApp) rfl

/-- C4: the settings are persisted under the fixed keys on every keystroke and
loaded at startup: the startup config equals the stored entries (absent read
as empty), and after a keystroke the displayed input value, the in-memory
config and the local-storage entry all equal the typed value. -/
theorem settings_persistence_agrees (ls : LocalStorage) (st : SettingsState)
    (cfg : Config) (v w : String) :
    ((initConfig ls).apiKey = (getItem ls API_KEY_KEY).getD "" ∧
     (initConfig ls).collectionName = (getItem ls COLLECTION_NAME_KEY).getD "") ∧
    ((onApiKeyChange st cfg ls v).1.apiKey = v ∧
     (onApiKeyChange st cfg ls v).2.1.apiKey = v ∧
     getItem (onApiKeyChange st cfg ls v).2.2 API_KEY_KEY = some v) ∧
    ((onCollectionNameChange st cfg ls w).1.collectionName = w ∧
     (onCollectionNameChange st cfg ls w).2.1.collectionName = w ∧
     getItem (onCollectionNameChange st cfg ls w).2.2 COLLECTION_NAME_KEY
       = some w) := by
  refine ⟨⟨rfl, rfl⟩, ⟨rfl, rfl, ?_⟩, ⟨rfl, rfl, ?_⟩⟩ <;>
    simp [getItem, setItem, onApiKeyChange, onCollectionNameChange, List.lookup]

/-- C5: the backend proxy forwards the received payload to the external
vector-search API unmodified and returns that API's response verbatim. -/
theorem proxy_forwards_verbatim (externalApi : SearchQuery → QueryResponse)
    (req : SearchQuery) :
    (backendProxy externalApi req).1 = req ∧
    (backendProxy externalApi req).2 = externalApi req :=
  ⟨rfl, rfl⟩

/-- C7: on a successful search the results state becomes exactly the response's
ordered result sequence, and the grid renders one image card per record, in
that same order. -/
theorem success_sets_results_and_renders_in_order (s : AppState)
    (resp : QueryResponse) (s' : AppState) (req : SearchQuery) :
    triggerSearch s (.success resp) = (s', some req) →
      s'.results = resp.results ∧
      (renderGrid s'.results).length = resp.results.length ∧
      ∀ i : Nat, (renderGrid s'.results)[i]? = (resp.results[i]?).map mkImageCard := by
  intro hreq
  by_cases h : s.config.apiKey = "" ∨ s.config.collectionName = ""
  · simp [triggerSearch, beginSearch, h] at hreq
  · simp [triggerSearch, beginSearch, finishSearch, h] at hreq
    obtain ⟨hs, -⟩ := hreq
    subst hs
    refine ⟨rfl, ?_, ?_⟩
    · simp [renderGrid]
    · intro i
      simp [renderGrid]

/-- C7 witness: a successful search on the sample state stores the sample
response's single record and renders exactly one card for it. -/
theorem success_sets_results_and_renders_in_order_witness :
    (triggerSearch sampleApp (.success sampleResp)).1.results
      = sampleResp.results ∧
    (renderGrid (triggerSearch sampleApp (.success sampleResp)).1.results).length
      = sampleResp.results.length := by
  have h := success_sets_results_and_renders_in_order sampleApp sampleResp
    (triggerSearch sampleApp (.success sampleResp)).1
    (mkSearchQuery sampleApp) rfl
  exact ⟨h.1, h.2.1⟩

/-- C8: when the search call throws, the previously displayed results (and
every other piece of state) are left untouched: the new state differs from the
old only in the error and loading fields. -/
theorem failure_preserves_results (s : AppState) (m : String) (s' : AppState)
    (req : SearchQuery) :
    triggerSearch s (.failure m) = (s', some req) →
      s' = { s with error := some m, loading := false } := by
  intro hreq
  by_cases h : s.config.apiKey = "" ∨ s.config.collectionName = ""
  · simp [triggerSearch, beginSearch, h] at hreq
  · simp [triggerSearch, beginSearch, finishSearch, h] at hreq
    exact hreq.1.symm

/-- C8 witness: a failing search on the sample state (which displays no
results) changes only its error and loading fields. -/
theorem failure_preserves_results_witness :
    (triggerSearch sampleApp (.failure "oops")).1
      = { sampleApp with error := some "oops", loading := false } :=
  failure_preserves_results sampleApp "oops"
    (triggerSearch sampleApp (.failure "oops")).1
    (mkSearchQuery sampleApp) rfl

/-- C9: a record whose photo_id field holds the string `pid` and whose
ai_description field holds the string `d` is rendered as a card whose image
URL is exactly "https://unsplash.com/photos/" ++ pid ++ "/download?w=320",
whose React key and heading are `pid`, and whose description text is `d`. -/
theorem image_card_url_and_fields (r : ResultRecord) (pid d : String)
    (hpid : r.get "photo_id" = .str pid)
    (hd : r.get "ai_description" = .str d) :
    (mkImageCard r).photoUrl
      = "https://unsplash.com/photos/" ++ pid ++ "/download?w=320" ∧
    (mkImageCard r).key = .str pid ∧
    (renderImageCard (mkImageCard r)).heading = .str pid ∧
    (renderImageCard (mkImageCard r)).text = .str d := by
  refine ⟨?_, ?_, ?_, ?_⟩ <;>
    simp [mkImageCard, renderImageCard, hpid, hd, jsAsString, WIDTH]
  rw [String.append_assoc,
    show ("/download?w=" ++ toString 320 : String) = "/download?w=320" from rfl]

/-- C9 witness: the sample record (photo_id "abc", ai_description "a tree")
renders with the expected URL, key, heading and description. -/
theorem image_card_url_and_fields_witness :
    (mkImageCard sampleRecord).photoUrl
      = "https://unsplash.com/photos/" ++ "abc" ++ "/download?w=320" ∧
    (mkImageCard sampleRecord).key = .str "abc" ∧
    (renderImageCard (mkImageCard sampleRecord)).heading = .str "abc" ∧
    (renderImageCard (mkImageCard sampleRecord)).text = .str "a tree" :=
  image_card_url_and_fields sampleRecord "abc" "a tree" (by decide) (by decide)

/-- C10: in the part_001 variant, at startup the settings drawer is open
exactly when the stored api key or collection name is absent or empty, and an
absent value is loaded into the config as the empty string. -/
theorem drawer_open_iff_missing_settings (ls : LocalStorage) :
    (initSettingsDrawerOpen ls = true ↔
      (getItem ls API_KEY_KEY = none ∨ getItem ls API_KEY_KEY = some "" ∨
       getItem ls COLLECTION_NAME_KEY = none ∨
       getItem ls COLLECTION_NAME_KEY = some "")) ∧
    (getItem ls API_KEY_KEY = none → (initConfig ls).apiKey = "") ∧
    (getItem ls COLLECTION_NAME_KEY = none →
      (initConfig ls).collectionName = "") := by
  refine ⟨?_, fun h => by simp [initConfig, h], fun h => by simp [initConfig, h]⟩
  cases hk : getItem ls API_KEY_KEY <;>
    cases hc : getItem ls COLLECTION_NAME_KEY <;>
      simp [initSettingsDrawerOpen, initConfig, hk, hc]

/-- Helper for C6: every event preserves the single-in-flight invariant. -/
theorem stepEvent_preserves_atMostOneInFlight (s : SysState) (e : Event)
    (h : atMostOneInFlight s) : atMostOneInFlight (stepEvent s e) := by
  obtain ⟨hlen, hiff⟩ := h
  cases e with
  | clickSearch =>
    by_cases hen : searchButtonEnabled s.app = true
    · simp [searchButtonEnabled, Bool.and_eq_true, Bool.not_eq_true'] at hen
      obtain ⟨⟨hload, hkey⟩, hcol⟩ := hen
      have hguard : ¬(s.app.config.apiKey = "" ∨ s.app.config.collectionName = "") := by
        push_neg
        exact ⟨hkey, hcol⟩
      have hempty : s.inFlight = [] := by
        by_contra hne
        exact absurd (hiff.mpr hne) (by simp [hload])
      simp [stepEvent, searchButtonEnabled, hload, beginSearch, hguard, hempty,
        atMostOneInFlight, hkey, hcol]
    · simp [stepEvent, hen]
      exact ⟨hlen, hiff⟩
  | completeSearch o =>
    cases hfl : s.inFlight with
    | nil =>
      have hload : s.app.loading = false := by
        simp [hfl] at hiff
        exact hiff
      simp [stepEvent, hfl, atMostOneInFlight, hload]
    | cons req rest =>
      have hrest : rest = [] := by
        rw [hfl] at hlen
        simpa using hlen
      cases o <;>
        simp [stepEvent, hfl, finishSearch, atMostOneInFlight, hrest]
  | typeQuery v => exact ⟨hlen, hiff⟩
  | typeSql v => exact ⟨hlen, hiff⟩
  | typeApiKey v => exact ⟨hlen, hiff⟩
  | typeCollectionName v => exact ⟨hlen, hiff⟩

/-- Helper for C6: the invariant holds along every event sequence. -/
theorem runEvents_preserves_atMostOneInFlight (es : List Event) (s : SysState)
    (h : atMostOneInFlight s) : atMostOneInFlight (runEvents s es) := by
  induction es generalizing s with
  | nil => exact h
  | cons e es ih =>
    rw [runEvents, List.foldl_cons]
    exact ih (stepEvent s e) (stepEvent_preserves_atMostOneInFlight s e h)

/-- C6: clicking Search while loading is a no-op (the button is disabled), and
along every event sequence from startup at most one search request is in
flight, with the loading flag set exactly while one is. -/
theorem single_inflight_search (ls : LocalStorage) (es : List Event) :
    (∀ t : SysState, t.app.loading = true → stepEvent t .clickSearch = t) ∧
    atMostOneInFlight (runEvents (initSys ls) es) := by
  constructor
  · intro t ht
    simp [stepEvent, searchButtonEnabled, ht]
  · refine runEvents_preserves_atMostOneInFlight es (initSys ls) ?_
    simp [atMostOneInFlight, initSys, initApp]

/-- C6 witness: a click is a no-op on a concrete loading state, and the
invariant holds concretely after a click and a completion from startup over
the sample settings. -/
theorem single_inflight_search_witness :
    stepEvent { app := { sampleApp with loading := true },
                inFlight := [mkSearchQuery sampleApp] } .clickSearch
      = { app := { sampleApp with loading := true },
          inFlight := [mkSearchQuery sampleApp] } ∧
    atMostOneInFlight
      (runEvents (initSys [(API_KEY_KEY, "key1"), (COLLECTION_NAME_KEY, "images")])
        [Event.clickSearch, Event.completeSearch (.failure "boom")]) := by
  have h := single_inflight_search
    [(API_KEY_KEY, "key1"), (COLLECTION_NAME_KEY, "images")]
    [Event.clickSearch, Event.completeSearch (.failure "boom")]
  exact ⟨h.1 _ rfl, h.2⟩

/-- C10 witness: over empty local storage both entries are absent, the config
loads them as empty strings, and the drawer starts open. -/
theorem drawer_open_iff_missing_settings_witness :
    initSettingsDrawerOpen [] = true ∧ (initConfig []).apiKey = "" := by
  have h := drawer_open_iff_missing_settings []
  exact ⟨h.1.mpr (Or.inl rfl), h.2.1 rfl⟩

end UnsplashDemo
